import Mathlib

/-!
Verification of the `liteflownet` optical-flow extraction scripts
(`calculate_flow_msrvtt.py` and `dataset.py`).

The Python sources are shallowly embedded: pure index/path/shape
computations become Lean functions, the module-level statement sequence
becomes an explicit list of statements folded over a state, the network's
forward pass is embedded both as a symbolic stage trace and as a
shape-level computation, and `sys.exit` becomes an explicit result
constructor.
-/

namespace LiteFlowNet

/-- Fuel-indexed unfolding of Python `range`: while `start < stop` (and
the step is positive), emit `start` and advance by `step`.  `stop - start`
units of fuel always suffice because each iteration advances by at least
one. -/
def pyRangeAux (step : Nat) : Nat → Nat → Nat → List Nat
  | 0, _, _ => []
  | fuel + 1, start, stop =>
      if 0 < step ∧ start < stop then
        start :: pyRangeAux step fuel (start + step) stop
      else
        []

/-- Python `range(start, stop, step)` for a non-negative start/stop and a
positive step: the strictly increasing list `start, start+step, ...` of
values below `stop`.  (For `step = 0` Python raises; the embedding returns
`[]`, and every use below has `step ≥ 1`.) -/
def pyRange (start stop step : Nat) : List Nat :=
  pyRangeAux step (stop - start) start stop

/-- Python `'{:05}'.format(i)`: the decimal digits of `i`, left-padded
with zeros to at least five characters. -/
def format05 (i : Nat) : String :=
  let s := toString i
  String.mk (List.replicate (5 - s.length) '0') ++ s

/-- `os.path.join(a, b)` for a non-empty `a` without a trailing separator
and a relative `b`, the only way the scripts use it. -/
def osPathJoin (a b : String) : String :=
  a ++ "/" ++ b

/-- Observable actions of the `__main__` loop of
`calculate_flow_msrvtt.py` for one video clip. -/
inductive Event where
  | estimateCall (first second : Nat)
  | save (path : String)
deriving DecidableEq, Repr

/-- Body of `for i in range(T - 1)` in the `__main__` loop: one
`estimate(clip[0, :, i], clip[0, :, i+1])` call followed by one
`torch.save(..., os.path.join(save_dir, '{:05}.flow'.format(i)))`. -/
def clipLoopBody (saveDir : String) (i : Nat) : List Event :=
  [Event.estimateCall i (i + 1),
   Event.save (osPathJoin saveDir (format05 i ++ ".flow"))]

/-- The `__main__` loop of `calculate_flow_msrvtt.py` for one video with
`T` frames: `save_dir = os.path.join(args.save_dir, video_id)`, then the
frame-pair loop `for i in range(T - 1)`. -/
def processClip (saveRoot videoId : String) (T : Nat) : List Event :=
  let saveDir := osPathJoin saveRoot videoId
  (pyRange 0 (T - 1) 1).flatMap (clipLoopBody saveDir)

/-- The `estimate` calls recorded in an event list. -/
def estimateOf : Event → Option (Nat × Nat)
  | Event.estimateCall i j => some (i, j)
  | _ => none

/-- The file paths saved in an event list. -/
def saveOf : Event → Option String
  | Event.save p => some p
  | _ => none

theorem pyRange_step_one_aux :
    ∀ n start stop, stop - start = n →
      pyRangeAux 1 n start stop = List.range' start n 1 := by
  intro n
  induction n with
  | zero =>
      intro start stop _h
      rfl
  | succ k ih =>
      intro start stop h
      rw [pyRangeAux]
      have hlt : 0 < 1 ∧ start < stop := by omega
      simp only [hlt, and_self, if_true]
      rw [ih (start + 1) stop (by omega), List.range'_succ]

theorem pyRange_step_one (stop start : Nat) :
    pyRange start stop 1 = List.range' start (stop - start) 1 :=
  pyRange_step_one_aux (stop - start) start stop rfl

theorem pyRange_zero_one (n : Nat) : pyRange 0 n 1 = List.range n := by
  rw [pyRange_step_one, Nat.sub_zero, List.range_eq_range']

theorem filterMap_estimate_flatMap (saveDir : String) :
    ∀ l : List Nat,
      (l.flatMap (clipLoopBody saveDir)).filterMap estimateOf =
        l.map (fun i => (i, i + 1)) := by
  intro l
  induction l with
  | nil => rfl
  | cons a l ih =>
      simp only [List.flatMap_cons, List.filterMap_append, List.map_cons, ih,
        clipLoopBody]
      rfl

theorem filterMap_save_flatMap (saveDir : String) :
    ∀ l : List Nat,
      (l.flatMap (clipLoopBody saveDir)).filterMap saveOf =
        l.map (fun i => osPathJoin saveDir (format05 i ++ ".flow")) := by
  intro l
  induction l with
  | nil => rfl
  | cons a l ih =>
      simp only [List.flatMap_cons, List.filterMap_append, List.map_cons, ih,
        clipLoopBody]
      rfl

/-- C1: for a video with `T` frames the main loop calls `estimate` exactly
once per consecutive frame pair `(i, i+1)` for `i = 0, ..., T-2`, and saves
the result of pair `i` to `os.path.join(save_dir, video_id,
'{:05}.flow'.format(i))`, so exactly `T - 1` flow files named `00000.flow`
through the zero-padded `T - 2` are written for the video. -/
theorem mainLoop_estimates_and_saves (saveRoot videoId : String) (T : Nat) :
    (processClip saveRoot videoId T).filterMap estimateOf =
        (List.range (T - 1)).map (fun i => (i, i + 1)) ∧
    (processClip saveRoot videoId T).filterMap saveOf =
        (List.range (T - 1)).map
          (fun i => osPathJoin (osPathJoin saveRoot videoId)
            (format05 i ++ ".flow")) ∧
    ((processClip saveRoot videoId T).filterMap saveOf).length = T - 1 := by
  unfold processClip
  rw [pyRange_zero_one]
  refine ⟨filterMap_estimate_flatMap _ _, filterMap_save_flatMap _ _, ?_⟩
  rw [filterMap_save_flatMap, List.length_map, List.length_range]

/-! ## `dataset.py`: frame loaders and the `MSR_VTT` dataset -/

/-- Result of running a Python function that may call `sys.exit`:
either a normal return value, or process termination after printing
a message, with the given exit status. -/
inductive PyResult (α : Type) where
  | ok (value : α)
  | exit (printed : String) (code : Nat)
deriving DecidableEq, Repr

/-- The message printed by all three format dispatches in `dataset.py`
before `sys.exit(1)`. -/
def errFormatMsg : String :=
  "You have to choose \"jpg\" or \"hdf5\" as image file format."

/-- The file name `'image_{:05d}.jpg'.format(i)` requested by the `'jpg'`
branch of `feature_extract_loader` for loop index `i`. -/
def jpgFrameName (i : Nat) : String :=
  "image_" ++ format05 i ++ ".jpg"

/-- The file name holding the frame of temporal index `t` under the
repository's convention: `train_video_loader` documents frame names as
`image_000001.jpg ~` and opens `'image_{:05d}.jpg'.format(i+1)` for frame
index `i`, so frame `t` lives in `image_{t+1 zero-padded}.jpg`. -/
def conventionFrameName (t : Nat) : String :=
  "image_" ++ format05 (t + 1) ++ ".jpg"

/-- The sequence of file names the `'jpg'` branch of
`feature_extract_loader` opens for a directory of `n` frames:
`image_{:05d}.jpg'.format(i)` for `i in range(0, n_frames,
temp_downsamp_rate)`. -/
def featureExtractJpgNames (n rate : Nat) : List String :=
  (pyRange 0 n rate).map jpgFrameName

/-- The temporal frame indices the `'jpg'` branch of
`feature_extract_loader` actually loads, for a directory holding frames
of temporal indices `0, ..., n-1` named per the repository convention:
each requested file name is resolved against the conventional names, and
the whole load fails (`none`) if any requested file does not exist. -/
def featureExtractJpgTemporal (n rate : Nat) : Option (List Nat) :=
  (pyRange 0 n rate).mapM
    (fun i => (List.range n).find? (fun t => conventionFrameName t == jpgFrameName i))

/-- The temporal frame indices the `'hdf5'` branch of
`feature_extract_loader` loads: `video[i]` for
`i in range(0, n_frames, temp_downsamp_rate)`. -/
def featureExtractHdf5Indices (n rate : Nat) : List Nat :=
  pyRange 0 n rate

/-- `feature_extract_loader`, at the level of the loop indices it
iterates: both the `'jpg'` and `'hdf5'` branches run
`range(0, n_frames, temp_downsamp_rate)`; any other format prints the
error message and exits with status 1. -/
def featureExtractLoaderRun (fmt : String) (n rate : Nat) :
    PyResult (List Nat) :=
  if fmt = "jpg" then PyResult.ok (pyRange 0 n rate)
  else if fmt = "hdf5" then PyResult.ok (pyRange 0 n rate)
  else PyResult.exit errFormatMsg 1

/-- Closed form of the self-appending padding loop in the `'jpg'` branch
of `train_video_loader` (`for i in indices: if len(indices) >=
input_frames: break; else: indices.append(i)`): an empty list stays
empty, a list already of length `≥ input_frames` is unchanged, and a
shorter non-empty list is extended cyclically to exactly `input_frames`
elements. -/
def loopPadGe (l : List Nat) (target : Nat) : List Nat :=
  if l.length = 0 then l
  else if target ≤ l.length then l
  else (List.range target).map (fun k => l.getD (k % l.length) 0)

/-- Closed form of the padding loop in the `'hdf5'` branch of
`train_video_loader`, which additionally truncates a list longer than
`input_frames` to its first `input_frames` elements. -/
def loopPadEq (l : List Nat) (target : Nat) : List Nat :=
  if l.length = 0 then l
  else if target ≤ l.length then l.take target
  else (List.range target).map (fun k => l.getD (k % l.length) 0)

/-- `train_video_loader` at the level of frame loop indices, with the
value of the `np.random.randint` draw passed in as `start`: the `'jpg'`
branch slices `range(n_frames)[start_frame::rate]` and loop-pads, the
`'hdf5'` branch does the same with its own padding loop, and any other
format prints the error message and exits with status 1. -/
def trainVideoLoaderRun (fmt : String) (n rate inputFrames start : Nat) :
    PyResult (List Nat) :=
  if fmt = "jpg" then PyResult.ok (loopPadGe (pyRange start n rate) inputFrames)
  else if fmt = "hdf5" then PyResult.ok (loopPadEq (pyRange start n rate) inputFrames)
  else PyResult.exit errFormatMsg 1

/-- `MSR_VTT.__init__` at the level of the video list, with the directory
listing passed in: `'hdf5'` globs `*.hdf5`, `'jpg'` globs `*`, and any
other format prints the error message and exits with status 1. -/
def msrvttInitRun (fmt : String) (dirListing : List String) :
    PyResult (List String) :=
  if fmt = "hdf5" then
    PyResult.ok (dirListing.filter (fun s => s.endsWith ".hdf5"))
  else if fmt = "jpg" then PyResult.ok dirListing
  else PyResult.exit errFormatMsg 1

/-- A 3-dimensional tensor `(C, H, W)` as a value table. -/
def Tensor3 : Type := Nat → Nat → Nat → ℚ

/-- A 4-dimensional tensor as a value table. -/
def Tensor4 : Type := Nat → Nat → Nat → Nat → ℚ

/-- `torch.stack(clip, 0)`: dimension 0 indexes the frames in list
order. -/
def stackDim0 (frames : List Tensor3) : Tensor4 :=
  fun t c h w => (frames.getD t (fun _ _ _ => 0)) c h w

/-- `.permute(1, 0, 2, 3)` on a stacked clip: swaps the first two
dimensions. -/
def permute1023 (t : Tensor4) : Tensor4 :=
  fun c a h w => t a c h w

/-- The clip tensor built by `MSR_VTT.__getitem__`:
`torch.stack(clip, 0).permute(1, 0, 2, 3)`, of shape `(C, T, H, W)`. -/
def getitemClip (frames : List Tensor3) : Tensor4 :=
  permute1023 (stackDim0 frames)

/-- Modelled from the spec: the order in which the `__main__` loop visits
dataset items.  `DataLoader(..., shuffle=False)` uses torch's sequential
sampler, which yields indices `0, ..., n-1` in order; torch itself is not
part of this repository's sources. -/
def mainVideoOrder (n : Nat) : List Nat :=
  List.range n

theorem pyRangeAux_mem_ge (step : Nat) :
    ∀ fuel start stop, ∀ x ∈ pyRangeAux step fuel start stop, start ≤ x := by
  intro fuel
  induction fuel with
  | zero =>
      intro start stop x hx
      simp [pyRangeAux] at hx
  | succ k ih =>
      intro start stop x hx
      rw [pyRangeAux] at hx
      by_cases hc : 0 < step ∧ start < stop
      · simp only [hc, and_self, if_true, List.mem_cons] at hx
        rcases hx with rfl | hx
        · exact le_refl x
        · have := ih (start + step) stop x hx
          omega
      · simp [hc] at hx

theorem pyRangeAux_pairwise (step : Nat) (hs : 1 ≤ step) :
    ∀ fuel start stop,
      List.Pairwise (· < ·) (pyRangeAux step fuel start stop) := by
  intro fuel
  induction fuel with
  | zero =>
      intro start stop
      simp [pyRangeAux]
  | succ k ih =>
      intro start stop
      rw [pyRangeAux]
      by_cases hc : 0 < step ∧ start < stop
      · simp only [hc, and_self, if_true]
        refine List.Pairwise.cons ?_ (ih (start + step) stop)
        intro x hx
        have := pyRangeAux_mem_ge step k (start + step) stop x hx
        omega
      · simp [hc]

theorem pyRange_pairwise (start stop step : Nat) (hs : 1 ≤ step) :
    List.Pairwise (· < ·) (pyRange start stop step) :=
  pyRangeAux_pairwise step hs (stop - start) start stop

/-- C3: for either supported image file format, the frame loop indices of
`feature_extract_loader` are strictly increasing (so the `T` dimension of
the `(C, T, H, W)` clip built by `MSR_VTT.__getitem__` holds the loaded
frames in increasing temporal order: entry `t` of that dimension is frame
`t` of the loaded list), and the main script's `DataLoader` with
`shuffle=False` visits the videos in the dataset's listed order
`0, ..., n-1`. -/
theorem getitem_temporally_ordered (fmt : String) (n rate nv : Nat)
    (hr : 1 ≤ rate) (hfmt : fmt = "jpg" ∨ fmt = "hdf5") :
    (∃ idxs, featureExtractLoaderRun fmt n rate = PyResult.ok idxs ∧
      List.Pairwise (· < ·) idxs) ∧
    (∀ (frames : List Tensor3) (t : Nat) (ht : t < frames.length)
        (c h w : Nat),
      getitemClip frames c t h w = (frames.get ⟨t, ht⟩) c h w) ∧
    (mainVideoOrder nv).length = nv ∧
    (∀ k, k < nv → (mainVideoOrder nv).getD k 0 = k) := by
  refine ⟨?_, ?_, ?_, ?_⟩
  · refine ⟨pyRange 0 n rate, ?_, pyRange_pairwise 0 n rate hr⟩
    rcases hfmt with rfl | rfl
    · rfl
    · rfl
  · intro frames t ht c h w
    simp only [getitemClip, permute1023, stackDim0]
    rw [List.getD_eq_getElem?_getD, List.getElem?_eq_getElem ht]
    rfl
  · simp [mainVideoOrder]
  · intro k hk
    simp [mainVideoOrder, List.getD_eq_getElem?_getD, List.getElem?_range hk]

/-- Witness for C3 at `fmt = "hdf5"`, `n = 5`, `rate = 2`, `nv = 3`. -/
theorem getitem_temporally_ordered_witness :
    (1 ≤ 2 ∧ ("hdf5" = "jpg" ∨ "hdf5" = "hdf5")) ∧
    ((∃ idxs, featureExtractLoaderRun "hdf5" 5 2 = PyResult.ok idxs ∧
        List.Pairwise (· < ·) idxs) ∧
      (∀ (frames : List Tensor3) (t : Nat) (ht : t < frames.length)
          (c h w : Nat),
        getitemClip frames c t h w = (frames.get ⟨t, ht⟩) c h w) ∧
      (mainVideoOrder 3).length = 3 ∧
      (∀ k, k < 3 → (mainVideoOrder 3).getD k 0 = k)) :=
  ⟨⟨by decide, by decide⟩,
    getitem_temporally_ordered "hdf5" 5 2 3 (by decide) (by decide)⟩

/-- C2 (the code violates it): on a one-frame video stored per the
repository's JPEG convention (the single frame of temporal index 0 lives
in `image_00001.jpg`), the `'hdf5'` branch of `feature_extract_loader`
loads frame 0, but the `'jpg'` branch requests `image_00000.jpg` — a file
that does not exist under the convention — so the two branches do not
load the same frame sequence. -/
theorem featureExtract_jpg_hdf5_mismatch :
    featureExtractJpgTemporal 1 1 = none ∧
    featureExtractHdf5Indices 1 1 = [0] ∧
    featureExtractJpgNames 1 1 = ["image_00000.jpg"] ∧
    conventionFrameName 0 = "image_00001.jpg" := by
  refine ⟨?_, ?_, ?_, ?_⟩ <;> decide

/-- C9: for any `image_file_format` other than `"jpg"` and `"hdf5"`,
`feature_extract_loader`, `train_video_loader` and `MSR_VTT.__init__`
all print the error message and terminate the process with exit
status 1 instead of returning a value. -/
theorem bad_format_exits (fmt : String) (h1 : fmt ≠ "jpg")
    (h2 : fmt ≠ "hdf5") (n rate inputFrames start : Nat)
    (files : List String) :
    featureExtractLoaderRun fmt n rate = PyResult.exit errFormatMsg 1 ∧
    trainVideoLoaderRun fmt n rate inputFrames start =
      PyResult.exit errFormatMsg 1 ∧
    msrvttInitRun fmt files = PyResult.exit errFormatMsg 1 := by
  refine ⟨?_, ?_, ?_⟩ <;>
    simp [featureExtractLoaderRun, trainVideoLoaderRun, msrvttInitRun, h1, h2]

/-- Witness for C9 at `fmt = "png"`. -/
theorem bad_format_exits_witness :
    (("png" : String) ≠ "jpg" ∧ ("png" : String) ≠ "hdf5") ∧
    (featureExtractLoaderRun "png" 3 1 = PyResult.exit errFormatMsg 1 ∧
     trainVideoLoaderRun "png" 3 1 2 0 = PyResult.exit errFormatMsg 1 ∧
     msrvttInitRun "png" ["v0.hdf5"] = PyResult.exit errFormatMsg 1) :=
  ⟨⟨by decide, by decide⟩,
    bad_format_exits "png" (by decide) (by decide) 3 1 2 0 ["v0.hdf5"]⟩

/-! ## Module-level statements of `calculate_flow_msrvtt.py` -/

/-- The top-level statements of `calculate_flow_msrvtt.py`, in source
order; all of them execute at module import time except `runMain`, which
stands for the `if __name__ == '__main__'` block (the `DataLoader` loop
whose body calls `estimate`). -/
inductive TopStmt where
  | assertTorchVersion
  | setGradEnabled (enabled : Bool)
  | setCudnnEnabled (enabled : Bool)
  | defBackwardGrid
  | defBackwardFn
  | defNetworkClass
  | constructNetwork
  | defEstimateFn
  | defGetArgumentsFn
  | runMain
deriving DecidableEq, Repr

/-- The statement sequence of the module: lines 20, 22, 24, 28, the
`Backward` and `Network` definitions, `moduleNetwork = Network().cuda().eval()`
(line 320), the `estimate` and `get_arguments` definitions, and the main
block. -/
def moduleStatements : List TopStmt :=
  [TopStmt.assertTorchVersion,
   TopStmt.setGradEnabled false,
   TopStmt.setCudnnEnabled true,
   TopStmt.defBackwardGrid,
   TopStmt.defBackwardFn,
   TopStmt.defNetworkClass,
   TopStmt.constructNetwork,
   TopStmt.defEstimateFn,
   TopStmt.defGetArgumentsFn,
   TopStmt.runMain]

/-- Effect of one top-level statement on torch's gradient-enabled flag. -/
def stepGrad (g : Bool) : TopStmt → Bool
  | TopStmt.setGradEnabled b => b
  | _ => g

/-- The gradient-enabled flag after executing a statement list, starting
from torch's default (gradients enabled). -/
def gradAfter (stmts : List TopStmt) : Bool :=
  stmts.foldl stepGrad true

/-- C6: `torch.set_grad_enabled(False)` appears among the top-level
statements strictly before the network construction; the gradient flag is
already `false` when `moduleNetwork` is constructed and still `false` when
the main block (every `estimate` call) runs; and no statement of the
module ever re-enables gradients. -/
theorem grad_disabled_throughout :
    (TopStmt.setGradEnabled false) ∈
      (moduleStatements.takeWhile
        (fun s => decide (s ≠ TopStmt.constructNetwork))) ∧
    gradAfter (moduleStatements.takeWhile
      (fun s => decide (s ≠ TopStmt.constructNetwork))) = false ∧
    gradAfter (moduleStatements.takeWhile
      (fun s => decide (s ≠ TopStmt.runMain))) = false ∧
    gradAfter moduleStatements = false ∧
    (∀ s ∈ moduleStatements, s ≠ TopStmt.setGradEnabled true) := by
  refine ⟨?_, ?_, ?_, ?_, ?_⟩ <;> decide

/-! ## `Network.forward`: stage pipeline and in-place mean subtraction -/

/-- Symbolic flow values produced by the stages of `Network.forward`:
each constructor records which stage ran at which pyramid level, and on
which previous flow (`none` for the very first `Matching`). -/
inductive FlowStage where
  | matching (level : Nat) (prev : Option FlowStage)
  | subpixel (level : Nat) (prev : FlowStage)
  | regular (level : Nat) (prev : FlowStage)

/-- `ModuleList([Matching(intLevel) for intLevel in [2, 3, 4, 5, 6]])`,
at the level of the stored levels. -/
def matchingLevels : List Nat := [2, 3, 4, 5, 6]

/-- `ModuleList([Subpixel(intLevel) for intLevel in [2, 3, 4, 5, 6]])`. -/
def subpixelLevels : List Nat := [2, 3, 4, 5, 6]

/-- `ModuleList([Regularization(intLevel) for intLevel in [2, 3, 4, 5, 6]])`. -/
def regularLevels : List Nat := [2, 3, 4, 5, 6]

/-- Python list indexing `l[i]`, with negative indices counting from the
end and out-of-range access failing (`IndexError`). -/
def pyIdx {α : Type} (l : List α) (i : Int) : Option α :=
  let j : Int := if i < 0 then (l.length : Int) + i else i
  if j < 0 then none else l.get? j.toNat

/-- The loop levels of `Network.forward`:
`for intLevel in [-1, -2, -3, -4, -5]`. -/
def intLevels : List Int := [-1, -2, -3, -4, -5]

/-- The flow refinement loop of `Network.forward`: at each `intLevel`,
index the three module lists (Python negative indexing) and run
`Matching`, then `Subpixel`, then `Regularization`, each on the previous
stage's flow; the flow is `None` before the first iteration. -/
def networkForwardLoop : Option (Option FlowStage) :=
  intLevels.foldlM
    (fun flow idx => do
      let lM ← pyIdx matchingLevels idx
      let lS ← pyIdx subpixelLevels idx
      let lR ← pyIdx regularLevels idx
      pure (some (FlowStage.regular lR
        (FlowStage.subpixel lS (FlowStage.matching lM flow)))))
    none

/-- The value returned by `Network.forward`: the loop's final flow
multiplied by `20.0` (failing if any module access failed or the loop
never produced a flow). -/
def networkForwardFlow : Option (ℚ × FlowStage) :=
  match networkForwardLoop with
  | none => none
  | some none => none
  | some (some t) => some (20, t)

/-- Symbolic feature tensors of `Features.forward`: each level is
computed from the previous one. -/
inductive FeatT where
  | input
  | one (p : FeatT)
  | two (p : FeatT)
  | thr (p : FeatT)
  | fou (p : FeatT)
  | fiv (p : FeatT)
  | six (p : FeatT)
deriving DecidableEq, Repr

/-- `Features.forward`: six chained blocks, returning the list
`[tensorOne, ..., tensorSix]`. -/
def featuresForwardList (x : FeatT) : List FeatT :=
  let a := FeatT.one x
  let b := FeatT.two a
  let c := FeatT.thr b
  let d := FeatT.fou c
  let e := FeatT.fiv d
  let f := FeatT.six e
  [a, b, c, d, e, f]

/-- C5: `Network.forward` extracts a 6-level feature pyramid with
`moduleFeatures`, and its loop resolves the negative module indices to
pyramid levels 6, 5, 4, 3, 2 in that (coarsest-to-finest) order, running
cost-volume `Matching`, then `Subpixel`, then `Regularization` at each
level, each stage consuming the previous stage's flow (`None` at the
first `Matching` of level 6), and finally returns the level-2 flow
multiplied by 20.0. -/
theorem network_forward_pipeline :
    networkForwardFlow =
      some (20,
        FlowStage.regular 2
          (FlowStage.subpixel 2
            (FlowStage.matching 2
              (some (FlowStage.regular 3
                (FlowStage.subpixel 3
                  (FlowStage.matching 3
                    (some (FlowStage.regular 4
                      (FlowStage.subpixel 4
                        (FlowStage.matching 4
                          (some (FlowStage.regular 5
                            (FlowStage.subpixel 5
                              (FlowStage.matching 5
                                (some (FlowStage.regular 6
                                  (FlowStage.subpixel 6
                                    (FlowStage.matching 6
                                      none))))))))))))))))))) ∧
    (∀ x, (featuresForwardList x).length = 6) :=
  ⟨rfl, fun _x => rfl⟩

/-- A heap of tensor objects: references (the identities of the tensors a
caller holds) mapped to their current values. -/
def Store : Type := Nat → Tensor3

/-- `t[:, ch, :, :] = t[:, ch, :, :] - mu`: in-place slice assignment
subtracting `mu` from channel `ch` of a tensor. -/
def sliceSubChannel (t : Tensor3) (ch : Nat) (mu : ℚ) : Tensor3 :=
  fun c h w => if c = ch then t c h w - mu else t c h w

/-- The three slice assignments `Network.forward` performs on
`tensorFirst` (channels 0, 1, 2, in that order). -/
def meanSubFirst (t : Tensor3) : Tensor3 :=
  sliceSubChannel (sliceSubChannel (sliceSubChannel t 0 0.411618) 1 0.434631)
    2 0.454253

/-- The three slice assignments `Network.forward` performs on
`tensorSecond`. -/
def meanSubSecond (t : Tensor3) : Tensor3 :=
  sliceSubChannel (sliceSubChannel (sliceSubChannel t 0 0.410782) 1 0.433645)
    2 0.452793

/-- Overwrite the object at reference `r`. -/
def storeUpdate (sigma : Store) (r : Nat) (t : Tensor3) : Store :=
  fun r2 => if r2 = r then t else sigma r2

/-- The effect of `Network.forward` on the caller's heap: the slice
assignments of lines 289-295 mutate the objects passed as `tensorFirst`
(reference `r1`) and `tensorSecond` (reference `r2`) in place; the later
rebinding `tensorFirst = [tensorFirst]` is local and touches no caller
data. -/
def networkForwardStore (sigma : Store) (r1 r2 : Nat) : Store :=
  let sigma1 := storeUpdate sigma r1 (meanSubFirst (sigma r1))
  storeUpdate sigma1 r2 (meanSubSecond (sigma1 r2))

/-- The operations of `Network.forward` in source order. -/
inductive FwdEvent where
  | meanSubtract (arg : Nat)
  | extractFeatures (arg : Nat)
  | buildImagePyramid
  | runLevel (level : Nat)
  | scaleOutput
deriving DecidableEq, Repr

/-- The operation sequence of `Network.forward`: the six slice
assignments (grouped per argument), the two `moduleFeatures` calls, the
image-pyramid loop, the five refinement levels, and the final scaling. -/
def networkForwardEvents : List FwdEvent :=
  [FwdEvent.meanSubtract 1, FwdEvent.meanSubtract 2,
   FwdEvent.extractFeatures 1, FwdEvent.extractFeatures 2,
   FwdEvent.buildImagePyramid,
   FwdEvent.runLevel 6, FwdEvent.runLevel 5, FwdEvent.runLevel 4,
   FwdEvent.runLevel 3, FwdEvent.runLevel 2,
   FwdEvent.scaleOutput]

/-- Recognizes the slice-assignment events. -/
def isMeanSubtract : FwdEvent → Bool
  | FwdEvent.meanSubtract _ => true
  | _ => false

/-- Recognizes the `moduleFeatures` calls. -/
def isExtractFeatures : FwdEvent → Bool
  | FwdEvent.extractFeatures _ => true
  | _ => false

/-- C8: `Network.forward` mutates its two argument tensors in place:
afterwards, channels 0, 1, 2 of the object passed as `tensorFirst` hold
their old values minus 0.411618, 0.434631, 0.454253, channels 0, 1, 2 of
`tensorSecond` hold their old values minus 0.410782, 0.433645, 0.452793,
any further channels are unchanged, every other object the caller holds
is unchanged, and the slice assignments happen before the feature
extraction. -/
theorem network_forward_mutates_inputs (sigma : Store) (r1 r2 : Nat)
    (hne : r1 ≠ r2) :
    (∀ h w,
      networkForwardStore sigma r1 r2 r1 0 h w = sigma r1 0 h w - 0.411618 ∧
      networkForwardStore sigma r1 r2 r1 1 h w = sigma r1 1 h w - 0.434631 ∧
      networkForwardStore sigma r1 r2 r1 2 h w = sigma r1 2 h w - 0.454253 ∧
      networkForwardStore sigma r1 r2 r2 0 h w = sigma r2 0 h w - 0.410782 ∧
      networkForwardStore sigma r1 r2 r2 1 h w = sigma r2 1 h w - 0.433645 ∧
      networkForwardStore sigma r1 r2 r2 2 h w = sigma r2 2 h w - 0.452793) ∧
    (∀ c h w, 3 ≤ c →
      networkForwardStore sigma r1 r2 r1 c h w = sigma r1 c h w ∧
      networkForwardStore sigma r1 r2 r2 c h w = sigma r2 c h w) ∧
    (∀ r, r ≠ r1 → r ≠ r2 → networkForwardStore sigma r1 r2 r = sigma r) ∧
    (∀ i, i < networkForwardEvents.length →
      ∀ j, j < networkForwardEvents.length →
      isMeanSubtract (networkForwardEvents.getD i FwdEvent.scaleOutput) =
        true →
      isExtractFeatures (networkForwardEvents.getD j FwdEvent.scaleOutput) =
        true →
      i < j) := by
  have hfirst : networkForwardStore sigma r1 r2 r1 = meanSubFirst (sigma r1) := by
    simp [networkForwardStore, storeUpdate, hne]
  have hsecond : networkForwardStore sigma r1 r2 r2 = meanSubSecond (sigma r2) := by
    simp [networkForwardStore, storeUpdate, Ne.symm hne]
  refine ⟨?_, ?_, ?_, ?_⟩
  · intro h w
    rw [hfirst, hsecond]
    simp [meanSubFirst, meanSubSecond, sliceSubChannel]
  · intro c h w hc
    have h0 : c ≠ 0 := by omega
    have h1 : c ≠ 1 := by omega
    have h2 : c ≠ 2 := by omega
    rw [hfirst, hsecond]
    constructor <;>
      simp [meanSubFirst, meanSubSecond, sliceSubChannel, h0, h1, h2]
  · intro r hr1 hr2
    simp [networkForwardStore, storeUpdate, hr1, hr2]
  · decide

/-- Witness for C8 at the zero store, `r1 = 0`, `r2 = 1`. -/
theorem network_forward_mutates_inputs_witness :
    ((0 : Nat) ≠ 1) ∧
    ((∀ h w,
      networkForwardStore (fun _ _ _ _ => 0) 0 1 0 0 h w =
        (fun (_ _ _ : Nat) => (0 : ℚ)) 0 h w - 0.411618 ∧
      networkForwardStore (fun _ _ _ _ => 0) 0 1 0 1 h w =
        (fun (_ _ _ : Nat) => (0 : ℚ)) 1 h w - 0.434631 ∧
      networkForwardStore (fun _ _ _ _ => 0) 0 1 0 2 h w =
        (fun (_ _ _ : Nat) => (0 : ℚ)) 2 h w - 0.454253 ∧
      networkForwardStore (fun _ _ _ _ => 0) 0 1 1 0 h w =
        (fun (_ _ _ : Nat) => (0 : ℚ)) 0 h w - 0.410782 ∧
      networkForwardStore (fun _ _ _ _ => 0) 0 1 1 1 h w =
        (fun (_ _ _ : Nat) => (0 : ℚ)) 1 h w - 0.433645 ∧
      networkForwardStore (fun _ _ _ _ => 0) 0 1 1 2 h w =
        (fun (_ _ _ : Nat) => (0 : ℚ)) 2 h w - 0.452793) ∧
    (∀ c h w, 3 ≤ c →
      networkForwardStore (fun _ _ _ _ => 0) 0 1 0 c h w =
        (fun (_ _ _ : Nat) => (0 : ℚ)) c h w ∧
      networkForwardStore (fun _ _ _ _ => 0) 0 1 1 c h w =
        (fun (_ _ _ : Nat) => (0 : ℚ)) c h w) ∧
    (∀ r, r ≠ 0 → r ≠ 1 →
      networkForwardStore (fun _ _ _ _ => 0) 0 1 r =
        (fun _ _ _ => (0 : ℚ))) ∧
    (∀ i, i < networkForwardEvents.length →
      ∀ j, j < networkForwardEvents.length →
      isMeanSubtract (networkForwardEvents.getD i FwdEvent.scaleOutput) =
        true →
      isExtractFeatures (networkForwardEvents.getD j FwdEvent.scaleOutput) =
        true →
      i < j)) :=
  ⟨by decide, network_forward_mutates_inputs (fun _ _ _ _ => 0) 0 1 (by decide)⟩

/-! ## Shape-level embedding of `estimate` and the network

Tensors are tracked by their `(N, C, H, W)` shapes; every operator checks
the same conditions the torch operator checks (channel counts for
convolutions, equal shapes for elementwise operations and concatenation,
element counts for `view`/`view_as`) and fails with `none` where torch
would raise. -/

/-- A 4-dimensional tensor shape `(N, C, H, W)`. -/
structure Shape4 where
  n : Nat
  c : Nat
  h : Nat
  w : Nat
deriving DecidableEq, Repr

/-- A 3-dimensional tensor shape `(C, H, W)`. -/
structure Shape3 where
  c : Nat
  h : Nat
  w : Nat
deriving DecidableEq, Repr

/-- Output size of a convolution along one dimension:
`(size + 2*padding - kernel) / stride + 1`. -/
def convOutDim (sz k s p : Nat) : Nat :=
  (sz + 2 * p - k) / s + 1

/-- `torch.nn.Conv2d(cin, cout, (kh, kw), stride=s, padding=(ph, pw))` on
shapes; fails if the input channel count does not match. -/
def conv2d (cin cout kh kw s ph pw : Nat) (t : Shape4) : Option Shape4 :=
  if t.c = cin then
    some ⟨t.n, cout, convOutDim t.h kh s ph, convOutDim t.w kw s pw⟩
  else none

/-- Square-kernel `Conv2d`; `LeakyReLU` layers are elementwise and leave
shapes unchanged, so `Sequential(Conv2d, LeakyReLU)` is just this. -/
def conv2dSq (cin cout k s p : Nat) (t : Shape4) : Option Shape4 :=
  conv2d cin cout k k s p p t

/-- `torch.nn.ConvTranspose2d(cin, cout, k, stride=s, padding=p)` on
shapes: output size `(in - 1)*s + k - 2*p`. -/
def deconv2d (cin cout k s p : Nat) (t : Shape4) : Option Shape4 :=
  if t.c = cin then
    some ⟨t.n, cout, (t.h - 1) * s + k - 2 * p, (t.w - 1) * s + k - 2 * p⟩
  else none

/-- An elementwise binary operation (`+`, `-`, `*`): both operands must
have the same shape (the network only combines equal shapes, so general
broadcasting is not needed). -/
def elemBinop (a b : Shape4) : Option Shape4 :=
  if a = b then some a else none

/-- `torch.cat([a, b], 1)`: equal batch and spatial sizes, channels
add. -/
def catDim1 (a b : Shape4) : Option Shape4 :=
  if a.n = b.n ∧ a.h = b.h ∧ a.w = b.w then
    some ⟨a.n, a.c + b.c, a.h, a.w⟩
  else none

/-- The `Backward` warping function on shapes: the grid built from the
flow (concatenating the two sliced flow channels and permuting to
`(N, H, W, 2)`) drives `grid_sample`, whose output keeps the input's
channels and takes the flow's spatial size; the flow must have two
channels and the same batch size. -/
def backwardShape (input flow : Shape4) : Option Shape4 :=
  if input.n = flow.n ∧ flow.c = 2 then
    some ⟨input.n, input.c, flow.h, flow.w⟩
  else none

/-- Modelled from the spec: the custom cost-volume layer
(`from correlation import correlation`) belongs to the repository but is
not under `src/`.  Per the spec it is a FlowNet-style
correlation/cost-volume computation; it compares two equal-shaped feature
maps over a 7x7 displacement window (49 output channels — corroborated by
the `in_channels=49` of `moduleMain` and `moduleUpcorr` in the source),
sampling output positions with the given stride. -/
def correlationShape (stride : Nat) (a b : Shape4) : Option Shape4 :=
  if a = b ∧ 1 ≤ stride then
    some ⟨a.n, 49, (a.h + stride - 1) / stride, (a.w + stride - 1) / stride⟩
  else none

/-- `torch.nn.functional.interpolate(t, size=(h, w), mode='bilinear')` on
shapes. -/
def interpolateTo (h w : Nat) (t : Shape4) : Shape4 :=
  ⟨t.n, t.c, h, w⟩

/-- `.sum(1, True)` (or any per-position reduction with `keepdim=True`)
on shapes. -/
def sumDim1Keep (t : Shape4) : Shape4 :=
  ⟨t.n, 1, t.h, t.w⟩

/-- `torch.nn.functional.unfold(t, kernel_size=k, stride=1,
padding=(k-1)/2)`: a 3-dimensional result
`(N, C*k*k, outH*outW)`. -/
def unfoldShape (k : Nat) (t : Shape4) : Nat × Nat × Nat :=
  (t.n, t.c * k * k,
    (t.h + 2 * ((k - 1) / 2) - k + 1) * (t.w + 2 * ((k - 1) / 2) - k + 1))

/-- `.view_as(target)`: succeeds iff the element counts agree. -/
def viewAsShape (target : Shape4) (u : Nat × Nat × Nat) : Option Shape4 :=
  if u.1 * u.2.1 * u.2.2 = target.n * target.c * target.h * target.w then
    some target
  else none

/-- `Features.forward` on shapes: the six convolution blocks of the
feature pyramid (channels 3 → 32, 32, 64, 96, 128, 192; blocks two to
six halve the spatial size with their leading stride-2 convolution). -/
def featuresShape (t : Shape4) : Option (List Shape4) := do
  let one ← conv2dSq 3 32 7 1 3 t
  let two ← conv2dSq 32 32 3 2 1 one
  let two ← conv2dSq 32 32 3 1 1 two
  let two ← conv2dSq 32 32 3 1 1 two
  let thr ← conv2dSq 32 64 3 2 1 two
  let thr ← conv2dSq 64 64 3 1 1 thr
  let fou ← conv2dSq 64 96 3 2 1 thr
  let fou ← conv2dSq 96 96 3 1 1 fou
  let fiv ← conv2dSq 96 128 3 2 1 fou
  let six ← conv2dSq 128 192 3 2 1 fiv
  pure [one, two, thr, fou, fiv, six]

/-- `[0, 0, 7, 5, 5, 3, 3][intLevel]`: kernel size of the final
convolution of `Matching`/`Subpixel` and of `moduleDist`. -/
def kTable (level : Nat) : Nat :=
  [0, 0, 7, 5, 5, 3, 3].getD level 0

/-- `[0, 0, 3, 2, 2, 1, 1][intLevel]`: the matching paddings. -/
def pTable (level : Nat) : Nat :=
  [0, 0, 3, 2, 2, 1, 1].getD level 0

/-- `self.intUnfold = [0, 0, 7, 5, 5, 3, 3][intLevel]` in
`Regularization`. -/
def intUnfoldTable (level : Nat) : Nat :=
  [0, 0, 7, 5, 5, 3, 3].getD level 0

/-- `[0, 0, 130, 130, 194, 258, 386][intLevel]`: input channels of
`Subpixel.moduleMain`. -/
def subpixelInChannels (level : Nat) : Nat :=
  [0, 0, 130, 130, 194, 258, 386].getD level 0

/-- `[0, 0, 32, 64, 96, 128, 192][intLevel]`: input channels of
`Regularization.moduleFeat` below level 5. -/
def regularFeatChannels (level : Nat) : Nat :=
  [0, 0, 32, 64, 96, 128, 192].getD level 0

/-- `[0, 0, 131, 131, 131, 131, 195][intLevel]`: input channels of
`Regularization.moduleMain`. -/
def regularMainChannels (level : Nat) : Nat :=
  [0, 0, 131, 131, 131, 131, 195].getD level 0

/-- `[0, 0, 49, 25, 25, 9, 9][intLevel]`: output channels of
`Regularization.moduleDist`. -/
def distChannels (level : Nat) : Nat :=
  [0, 0, 49, 25, 25, 9, 9].getD level 0

/-- `Matching.moduleFeat` (and the identical `Subpixel.moduleFeat`): the
identity except at level 2, where it is a 1x1 convolution 32 → 64. -/
def levelFeatShape (level : Nat) (f : Shape4) : Option Shape4 :=
  if level ≠ 2 then some f
  else conv2dSq 32 64 1 1 0 f

/-- `Matching.forward` on shapes (the image arguments are passed but
unused, as in the source): optional upsampling of the incoming flow with
`moduleUpflow` (absent — `None` — at level 6), warping of the second
feature map, correlation (stride 1 at levels ≥ 4; stride 2 plus
`moduleUpcorr` upsampling below), the `moduleMain` convolution stack, and
the residual addition of the upsampled flow. -/
def matchingShape (level : Nat) (_img1 _img2 f1 f2 : Shape4)
    (flow : Option Shape4) : Option Shape4 := do
  let f1 ← levelFeatShape level f1
  let f2 ← levelFeatShape level f2
  let flowU : Option Shape4 ←
    match flow with
    | none => pure none
    | some fl =>
        if level = 6 then none
        else do
          let u ← deconv2d 2 2 4 2 1 fl
          pure (some u)
  let f2 ←
    match flowU with
    | none => pure f2
    | some fl => backwardShape f2 fl
  let corr ←
    if 4 ≤ level then correlationShape 1 f1 f2
    else do
      let c ← correlationShape 2 f1 f2
      deconv2d 49 49 4 2 1 c
  let m ← conv2dSq 49 128 3 1 1 corr
  let m ← conv2dSq 128 64 3 1 1 m
  let m ← conv2dSq 64 32 3 1 1 m
  let m ← conv2dSq 32 2 (kTable level) 1 (pTable level) m
  match flowU with
  | none => pure m
  | some fl => elemBinop fl m

/-- `Subpixel.forward` on shapes: feature transform, warping of the
second feature map by the incoming flow, concatenation
`[feat1, feat2, flow]` (which needs the flow — it is never `None` here,
since `Subpixel` always runs after `Matching`), the `moduleMain` stack,
and the residual addition. -/
def subpixelShape (level : Nat) (_img1 _img2 f1 f2 : Shape4)
    (flow : Option Shape4) : Option Shape4 := do
  let f1 ← levelFeatShape level f1
  let f2 ← levelFeatShape level f2
  let f2 ←
    match flow with
    | none => pure f2
    | some fl => backwardShape f2 fl
  match flow with
  | none => none
  | some fl => do
      let cat1 ← catDim1 f1 f2
      let cat ← catDim1 cat1 fl
      let m ← conv2dSq (subpixelInChannels level) 128 3 1 1 cat
      let m ← conv2dSq 128 64 3 1 1 m
      let m ← conv2dSq 64 32 3 1 1 m
      let m ← conv2dSq 32 2 (kTable level) 1 (pTable level) m
      elemBinop fl m

/-- `Regularization.moduleFeat`: the identity at levels ≥ 5, otherwise a
1x1 convolution to 128 channels. -/
def regularFeatShape (level : Nat) (f : Shape4) : Option Shape4 :=
  if 5 ≤ level then some f
  else conv2dSq (regularFeatChannels level) 128 1 1 0 f

/-- `Regularization.moduleDist`: a single square-kernel convolution at
levels ≥ 5, otherwise the separable pair of `(k, 1)` and `(1, k)`
convolutions. -/
def distShape (level : Nat) (m : Shape4) : Option Shape4 :=
  if 5 ≤ level then
    conv2dSq 32 (distChannels level) (kTable level) 1 (pTable level) m
  else do
    let d ← conv2d 32 (distChannels level) (kTable level) 1 1 (pTable level) 0 m
    conv2d (distChannels level) (distChannels level) 1 (kTable level) 1 0
      (pTable level) d

/-- `Regularization.forward` on shapes: the brightness-difference term
(warp, subtract, square, `sum(1, True)`, sqrt), the mean-centred flow
(whose `view(n, 2, -1)` needs a 2-channel flow), the transformed first
feature map, their concatenation into `moduleMain`, `moduleDist`, the
softmax-style normalisation (shape-preserving), and the two
`unfold`/`view_as`/1x1-convolution scale branches concatenated into the
output flow.  Split across `regularMainStack` and `regularScaleBranch`
below, composed in `regularShape`. -/
def regularMainStack (level : Nat) (cat : Shape4) : Option Shape4 := do
  let m1 ← conv2dSq (regularMainChannels level) 128 3 1 1 cat
  let m2 ← conv2dSq 128 128 3 1 1 m1
  let m3 ← conv2dSq 128 64 3 1 1 m2
  let m4 ← conv2dSq 64 64 3 1 1 m3
  let m5 ← conv2dSq 64 32 3 1 1 m4
  conv2dSq 32 32 3 1 1 m5

/-- One scale branch of `Regularization.forward` (`moduleScaleX` /
`moduleScaleY`): `unfold` one flow channel, `view_as` the distance
tensor, multiply elementwise, apply the 1x1 convolution, multiply by the
divisor. -/
def regularScaleBranch (level : Nat) (dist divisor : Shape4)
    (flow : Shape4) : Option Shape4 := do
  let u ← viewAsShape dist
    (unfoldShape (intUnfoldTable level) ⟨flow.n, 1, flow.h, flow.w⟩)
  let s1 ← elemBinop dist u
  let s2 ← conv2dSq (distChannels level) 1 1 1 0 s1
  elemBinop s2 divisor

def regularShape (level : Nat) (img1 img2 f1 _f2 : Shape4) (flow : Shape4) :
    Option Shape4 := do
  let warped ← backwardShape img2 flow
  let dif ← elemBinop img1 warped
  let difS := sumDim1Keep dif
  let flowC ← (if flow.c = 2 then some flow else none)
  let featR ← regularFeatShape level f1
  let cat1 ← catDim1 difS flowC
  let cat ← catDim1 cat1 featR
  let m ← regularMainStack level cat
  let dist ← distShape level m
  let divisor := sumDim1Keep dist
  let sx ← regularScaleBranch level dist divisor flow
  let sy ← regularScaleBranch level dist divisor flow
  catDim1 sx sy

/-- The image-pyramid loop of `Network.forward`: starting from
`[tensorFirst]`, for `intLevel in [1, 2, 3, 4, 5]` append the previous
entry interpolated to the spatial size of `features[intLevel]`. -/
def buildPyramid (t : Shape4) (fs : List Shape4) : Option (List Shape4) :=
  ([1, 2, 3, 4, 5] : List Nat).foldlM
    (fun acc lvl =>
      match fs.get? lvl, acc.getLast? with
      | some f, some prev => some (acc ++ [interpolateTo f.h f.w prev])
      | _, _ => none)
    [t]

/-- One iteration of the refinement loop of `Network.forward`: resolve
the negative index into the pyramids and module lists, then run
`Matching`, `Subpixel` and `Regularization` in sequence. -/
def levelStepShape (imgs1 imgs2 fs1 fs2 : List Shape4)
    (flow : Option Shape4) (idx : Int) : Option (Option Shape4) := do
  let lM ← pyIdx matchingLevels idx
  let i1 ← pyIdx imgs1 idx
  let i2 ← pyIdx imgs2 idx
  let g1 ← pyIdx fs1 idx
  let g2 ← pyIdx fs2 idx
  let fl1 ← matchingShape lM i1 i2 g1 g2 flow
  let lS ← pyIdx subpixelLevels idx
  let fl2 ← subpixelShape lS i1 i2 g1 g2 (some fl1)
  let lR ← pyIdx regularLevels idx
  let fl3 ← regularShape lR i1 i2 g1 g2 fl2
  pure (some fl3)

/-- `Network.forward` on shapes: the slice assignments need at least
three channels, then the two feature pyramids, the two image pyramids,
the five-level refinement loop (Python negative indexing into the module
lists and the pyramids), and the final scaling by 20.0 (shape
preserving). -/
def networkShape (t1 t2 : Shape4) : Option Shape4 := do
  let t1 ← (if 3 ≤ t1.c then some t1 else none)
  let t2 ← (if 3 ≤ t2.c then some t2 else none)
  let fs1 ← featuresShape t1
  let fs2 ← featuresShape t2
  let imgs1 ← buildPyramid t1 fs1
  let imgs2 ← buildPyramid t2 fs2
  let res ← intLevels.foldlM (levelStepShape imgs1 imgs2 fs1 fs2) none
  match res with
  | none => none
  | some f => pure f

/-- `int(math.floor(math.ceil(x / 32.0) * 32.0))` in `estimate`: the
ceiling of `x/32`, times 32. -/
def intPreprocessed (x : Nat) : Nat :=
  (⌈(x : ℚ) / 32⌉).toNat * 32

/-- The steps `estimate` performs, in source order; when an assertion
fails nothing after it runs. -/
inductive EstEvent where
  | assertCheck
  | viewReshape
  | interpolateInput
  | networkRun
  | interpolateOutput
  | scaleChannels
deriving DecidableEq, Repr

/-- The operations `estimate` executes for the given input shapes. -/
def estimateEvents (s1 s2 : Shape3) : List EstEvent :=
  if s1.h ≠ s2.h ∨ s1.w ≠ s2.w then [EstEvent.assertCheck]
  else
    [EstEvent.assertCheck, EstEvent.viewReshape, EstEvent.interpolateInput,
     EstEvent.networkRun, EstEvent.interpolateOutput, EstEvent.scaleChannels]

/-- `estimate` on shapes: the two size assertions (dimension 1, then
dimension 2), the `view(1, 3, intHeight, intWidth)` reshapes (element-count
checks), interpolation of both inputs to the padded size, the network,
interpolation of the network output back to `(intHeight, intWidth)`, the
per-channel scale factors applied to channels 0 and 1, and the removal of
the batch dimension by `tensorFlow[0, :, :, :]`.  Returns the output
shape together with the two scale factors. -/
def estimateRun (s1 s2 : Shape3) : Except String (Shape3 × ℚ × ℚ) :=
  if s1.h ≠ s2.h then Except.error "AssertionError: size(1)"
  else if s1.w ≠ s2.w then Except.error "AssertionError: size(2)"
  else
    let intWidth := s1.w
    let intHeight := s1.h
    if s1.c * s1.h * s1.w ≠ 3 * intHeight * intWidth then
      Except.error "RuntimeError: view"
    else if s2.c * s2.h * s2.w ≠ 3 * intHeight * intWidth then
      Except.error "RuntimeError: view"
    else
      let preW := intPreprocessed intWidth
      let preH := intPreprocessed intHeight
      match networkShape ⟨1, 3, preH, preW⟩ ⟨1, 3, preH, preW⟩ with
      | none => Except.error "RuntimeError: network"
      | some net =>
          let flow := interpolateTo intHeight intWidth net
          if flow.c < 2 then Except.error "IndexError: channels"
          else if flow.n < 1 then Except.error "IndexError: batch"
          else Except.ok (⟨flow.c, flow.h, flow.w⟩,
            (intWidth : ℚ) / (preW : ℚ), (intHeight : ℚ) / (preH : ℚ))

/-! ## Symbolic evaluation of the shape pipeline -/

theorem conv2d_eq (cin cout kh kw s ph pw n h w : Nat) :
    conv2d cin cout kh kw s ph pw ⟨n, cin, h, w⟩ =
      some ⟨n, cout, convOutDim h kh s ph, convOutDim w kw s pw⟩ := by
  simp [conv2d]

theorem featuresShape_sym (a b : Nat) (ha : 1 ≤ a) (hb : 1 ≤ b) :
    featuresShape ⟨1, 3, 32*a, 32*b⟩ =
      some [⟨1, 32, 32*a, 32*b⟩, ⟨1, 32, 16*a, 16*b⟩, ⟨1, 64, 8*a, 8*b⟩,
            ⟨1, 96, 4*a, 4*b⟩, ⟨1, 128, 2*a, 2*b⟩, ⟨1, 192, a, b⟩] := by
  have c1a : convOutDim (32*a) 7 1 3 = 32*a := by unfold convOutDim; omega
  have c1b : convOutDim (32*b) 7 1 3 = 32*b := by unfold convOutDim; omega
  have c2a : convOutDim (32*a) 3 2 1 = 16*a := by unfold convOutDim; omega
  have c2b : convOutDim (32*b) 3 2 1 = 16*b := by unfold convOutDim; omega
  have c3a : convOutDim (16*a) 3 1 1 = 16*a := by unfold convOutDim; omega
  have c3b : convOutDim (16*b) 3 1 1 = 16*b := by unfold convOutDim; omega
  have c4a : convOutDim (16*a) 3 2 1 = 8*a := by unfold convOutDim; omega
  have c4b : convOutDim (16*b) 3 2 1 = 8*b := by unfold convOutDim; omega
  have c5a : convOutDim (8*a) 3 1 1 = 8*a := by unfold convOutDim; omega
  have c5b : convOutDim (8*b) 3 1 1 = 8*b := by unfold convOutDim; omega
  have c6a : convOutDim (8*a) 3 2 1 = 4*a := by unfold convOutDim; omega
  have c6b : convOutDim (8*b) 3 2 1 = 4*b := by unfold convOutDim; omega
  have c7a : convOutDim (4*a) 3 1 1 = 4*a := by unfold convOutDim; omega
  have c7b : convOutDim (4*b) 3 1 1 = 4*b := by unfold convOutDim; omega
  have c8a : convOutDim (4*a) 3 2 1 = 2*a := by unfold convOutDim; omega
  have c8b : convOutDim (4*b) 3 2 1 = 2*b := by unfold convOutDim; omega
  have c9a : convOutDim (2*a) 3 2 1 = a := by unfold convOutDim; omega
  have c9b : convOutDim (2*b) 3 2 1 = b := by unfold convOutDim; omega
  simp [featuresShape, conv2dSq, conv2d_eq, c1a, c1b, c2a, c2b, c3a, c3b,
    c4a, c4b, c5a, c5b, c6a, c6b, c7a, c7b, c8a, c8b, c9a, c9b]

theorem matchingShape_six (a b : Nat) (ha : 1 ≤ a) (hb : 1 ≤ b) :
    matchingShape 6 ⟨1, 3, a, b⟩ ⟨1, 3, a, b⟩ ⟨1, 192, a, b⟩ ⟨1, 192, a, b⟩
      none = some ⟨1, 2, a, b⟩ := by
  have hda : (a + 1 - 1) / 1 = a := by omega
  have hdb : (b + 1 - 1) / 1 = b := by omega
  have hca : convOutDim a 3 1 1 = a := by unfold convOutDim; omega
  have hcb : convOutDim b 3 1 1 = b := by unfold convOutDim; omega
  simp [matchingShape, levelFeatShape, correlationShape, kTable, pTable,
    conv2dSq, conv2d_eq, hda, hdb, hca, hcb]

theorem subpixelShape_six (a b : Nat) (ha : 1 ≤ a) (hb : 1 ≤ b) :
    subpixelShape 6 ⟨1, 3, a, b⟩ ⟨1, 3, a, b⟩ ⟨1, 192, a, b⟩ ⟨1, 192, a, b⟩
      (some ⟨1, 2, a, b⟩) = some ⟨1, 2, a, b⟩ := by
  have hca : convOutDim a 3 1 1 = a := by unfold convOutDim; omega
  have hcb : convOutDim b 3 1 1 = b := by unfold convOutDim; omega
  simp [subpixelShape, levelFeatShape, backwardShape, catDim1,
    subpixelInChannels, kTable, pTable, conv2dSq, conv2d_eq, elemBinop,
    hca, hcb]

theorem regularShape_six (a b : Nat) (ha : 1 ≤ a) (hb : 1 ≤ b) :
    regularShape 6 ⟨1, 3, a, b⟩ ⟨1, 3, a, b⟩ ⟨1, 192, a, b⟩ ⟨1, 192, a, b⟩
      ⟨1, 2, a, b⟩ = some ⟨1, 2, a, b⟩ := by
  have hca : convOutDim a 3 1 1 = a := by unfold convOutDim; omega
  have hcb : convOutDim b 3 1 1 = b := by unfold convOutDim; omega
  have hka : convOutDim a 1 1 0 = a := by unfold convOutDim; omega
  have hkb : convOutDim b 1 1 0 = b := by unfold convOutDim; omega
  have hva : a - 1 + 1 = a := by omega
  have hvb : b - 1 + 1 = b := by omega
  simp [regularShape, regularMainStack, regularScaleBranch, regularFeatShape,
    distShape, backwardShape, elemBinop, sumDim1Keep, catDim1, viewAsShape,
    unfoldShape, regularMainChannels, distChannels, intUnfoldTable, kTable,
    pTable, conv2dSq, conv2d_eq, hca, hcb, hka, hkb, hva, hvb, Nat.mul_assoc]

theorem deconv_flow_double (a b : Nat) (ha : 1 ≤ a) (hb : 1 ≤ b) :
    deconv2d 2 2 4 2 1 (⟨1, 2, a, b⟩ : Shape4) = some ⟨1, 2, 2*a, 2*b⟩ := by
  simp only [deconv2d, if_pos]
  simp [Shape4.mk.injEq]
  omega

theorem matchingShape_five (a b : Nat) (ha : 1 ≤ a) (hb : 1 ≤ b) :
    matchingShape 5 ⟨1, 3, 2*a, 2*b⟩ ⟨1, 3, 2*a, 2*b⟩ ⟨1, 128, 2*a, 2*b⟩
      ⟨1, 128, 2*a, 2*b⟩ (some ⟨1, 2, a, b⟩) = some ⟨1, 2, 2*a, 2*b⟩ := by
  have hup := deconv_flow_double a b ha hb
  have hda : (2*a + 1 - 1) / 1 = 2*a := by omega
  have hdb : (2*b + 1 - 1) / 1 = 2*b := by omega
  have hca : convOutDim (2*a) 3 1 1 = 2*a := by unfold convOutDim; omega
  have hcb : convOutDim (2*b) 3 1 1 = 2*b := by unfold convOutDim; omega
  simp [matchingShape, levelFeatShape, backwardShape, correlationShape,
    elemBinop, kTable, pTable, conv2dSq, conv2d_eq, hup, hda, hdb, hca, hcb]

theorem subpixelShape_five (a b : Nat) (ha : 1 ≤ a) (hb : 1 ≤ b) :
    subpixelShape 5 ⟨1, 3, 2*a, 2*b⟩ ⟨1, 3, 2*a, 2*b⟩ ⟨1, 128, 2*a, 2*b⟩
      ⟨1, 128, 2*a, 2*b⟩ (some ⟨1, 2, 2*a, 2*b⟩) = some ⟨1, 2, 2*a, 2*b⟩ := by
  have hca : convOutDim (2*a) 3 1 1 = 2*a := by unfold convOutDim; omega
  have hcb : convOutDim (2*b) 3 1 1 = 2*b := by unfold convOutDim; omega
  simp [subpixelShape, levelFeatShape, backwardShape, catDim1,
    subpixelInChannels, kTable, pTable, conv2dSq, conv2d_eq, elemBinop,
    hca, hcb]

theorem regularShape_five (a b : Nat) (ha : 1 ≤ a) (hb : 1 ≤ b) :
    regularShape 5 ⟨1, 3, 2*a, 2*b⟩ ⟨1, 3, 2*a, 2*b⟩ ⟨1, 128, 2*a, 2*b⟩
      ⟨1, 128, 2*a, 2*b⟩ ⟨1, 2, 2*a, 2*b⟩ = some ⟨1, 2, 2*a, 2*b⟩ := by
  have hca : convOutDim (2*a) 3 1 1 = 2*a := by unfold convOutDim; omega
  have hcb : convOutDim (2*b) 3 1 1 = 2*b := by unfold convOutDim; omega
  have hka : convOutDim (2*a) 1 1 0 = 2*a := by unfold convOutDim; omega
  have hkb : convOutDim (2*b) 1 1 0 = 2*b := by unfold convOutDim; omega
  have hva : 2*a - 1 + 1 = 2*a := by omega
  have hvb : 2*b - 1 + 1 = 2*b := by omega
  simp [regularShape, regularMainStack, regularScaleBranch, regularFeatShape,
    distShape, backwardShape, elemBinop, sumDim1Keep, catDim1, viewAsShape,
    unfoldShape, regularMainChannels, distChannels, intUnfoldTable, kTable,
    pTable, conv2dSq, conv2d_eq, hca, hcb, hka, hkb, hva, hvb, Nat.mul_assoc]

theorem deconv_flow_double4 (a b : Nat) (ha : 1 ≤ a) (hb : 1 ≤ b) :
    deconv2d 2 2 4 2 1 (⟨1, 2, 2*a, 2*b⟩ : Shape4) =
      some ⟨1, 2, 4*a, 4*b⟩ := by
  simp [deconv2d, Shape4.mk.injEq]
  omega

theorem matchingShape_four (a b : Nat) (ha : 1 ≤ a) (hb : 1 ≤ b) :
    matchingShape 4 ⟨1, 3, 4*a, 4*b⟩ ⟨1, 3, 4*a, 4*b⟩ ⟨1, 96, 4*a, 4*b⟩
      ⟨1, 96, 4*a, 4*b⟩ (some ⟨1, 2, 2*a, 2*b⟩) = some ⟨1, 2, 4*a, 4*b⟩ := by
  have hup := deconv_flow_double4 a b ha hb
  have hda : (4*a + 1 - 1) / 1 = 4*a := by omega
  have hdb : (4*b + 1 - 1) / 1 = 4*b := by omega
  have hca : convOutDim (4*a) 3 1 1 = 4*a := by unfold convOutDim; omega
  have hcb : convOutDim (4*b) 3 1 1 = 4*b := by unfold convOutDim; omega
  have hfa : convOutDim (4*a) 5 1 2 = 4*a := by unfold convOutDim; omega
  have hfb : convOutDim (4*b) 5 1 2 = 4*b := by unfold convOutDim; omega
  simp [matchingShape, levelFeatShape, backwardShape, correlationShape,
    elemBinop, kTable, pTable, conv2dSq, conv2d_eq, hup, hda, hdb, hca, hcb,
    hfa, hfb]

theorem subpixelShape_four (a b : Nat) (ha : 1 ≤ a) (hb : 1 ≤ b) :
    subpixelShape 4 ⟨1, 3, 4*a, 4*b⟩ ⟨1, 3, 4*a, 4*b⟩ ⟨1, 96, 4*a, 4*b⟩
      ⟨1, 96, 4*a, 4*b⟩ (some ⟨1, 2, 4*a, 4*b⟩) = some ⟨1, 2, 4*a, 4*b⟩ := by
  have hca : convOutDim (4*a) 3 1 1 = 4*a := by unfold convOutDim; omega
  have hcb : convOutDim (4*b) 3 1 1 = 4*b := by unfold convOutDim; omega
  have hfa : convOutDim (4*a) 5 1 2 = 4*a := by unfold convOutDim; omega
  have hfb : convOutDim (4*b) 5 1 2 = 4*b := by unfold convOutDim; omega
  simp [subpixelShape, levelFeatShape, backwardShape, catDim1,
    subpixelInChannels, kTable, pTable, conv2dSq, conv2d_eq, elemBinop,
    hca, hcb, hfa, hfb]

theorem regularShape_four (a b : Nat) (ha : 1 ≤ a) (hb : 1 ≤ b) :
    regularShape 4 ⟨1, 3, 4*a, 4*b⟩ ⟨1, 3, 4*a, 4*b⟩ ⟨1, 96, 4*a, 4*b⟩
      ⟨1, 96, 4*a, 4*b⟩ ⟨1, 2, 4*a, 4*b⟩ = some ⟨1, 2, 4*a, 4*b⟩ := by
  have hca : convOutDim (4*a) 3 1 1 = 4*a := by unfold convOutDim; omega
  have hcb : convOutDim (4*b) 3 1 1 = 4*b := by unfold convOutDim; omega
  have hka : convOutDim (4*a) 1 1 0 = 4*a := by unfold convOutDim; omega
  have hkb : convOutDim (4*b) 1 1 0 = 4*b := by unfold convOutDim; omega
  have hfa : convOutDim (4*a) 5 1 2 = 4*a := by unfold convOutDim; omega
  have hfb : convOutDim (4*b) 5 1 2 = 4*b := by unfold convOutDim; omega
  have hva : 4*a - 1 + 1 = 4*a := by omega
  have hvb : 4*b - 1 + 1 = 4*b := by omega
  simp [regularShape, regularMainStack, regularScaleBranch, regularFeatShape,
    distShape, backwardShape, elemBinop, sumDim1Keep, catDim1, viewAsShape,
    unfoldShape, regularMainChannels, regularFeatChannels, distChannels,
    intUnfoldTable, kTable, pTable, conv2dSq, conv2d_eq, hca, hcb, hka, hkb,
    hfa, hfb, hva, hvb, Nat.mul_assoc]

theorem deconv_flow_double8 (a b : Nat) (ha : 1 ≤ a) (hb : 1 ≤ b) :
    deconv2d 2 2 4 2 1 (⟨1, 2, 4*a, 4*b⟩ : Shape4) =
      some ⟨1, 2, 8*a, 8*b⟩ := by
  simp [deconv2d, Shape4.mk.injEq]
  omega

theorem deconv_corr_double8 (a b : Nat) (ha : 1 ≤ a) (hb : 1 ≤ b) :
    deconv2d 49 49 4 2 1 (⟨1, 49, 4*a, 4*b⟩ : Shape4) =
      some ⟨1, 49, 8*a, 8*b⟩ := by
  simp [deconv2d, Shape4.mk.injEq]
  omega

theorem matchingShape_three (a b : Nat) (ha : 1 ≤ a) (hb : 1 ≤ b) :
    matchingShape 3 ⟨1, 3, 8*a, 8*b⟩ ⟨1, 3, 8*a, 8*b⟩ ⟨1, 64, 8*a, 8*b⟩
      ⟨1, 64, 8*a, 8*b⟩ (some ⟨1, 2, 4*a, 4*b⟩) = some ⟨1, 2, 8*a, 8*b⟩ := by
  have hup := deconv_flow_double8 a b ha hb
  have hco := deconv_corr_double8 a b ha hb
  have hsa : (8*a + 1) / 2 = 4*a := by omega
  have hsb : (8*b + 1) / 2 = 4*b := by omega
  have hca : convOutDim (8*a) 3 1 1 = 8*a := by unfold convOutDim; omega
  have hcb : convOutDim (8*b) 3 1 1 = 8*b := by unfold convOutDim; omega
  have hfa : convOutDim (8*a) 5 1 2 = 8*a := by unfold convOutDim; omega
  have hfb : convOutDim (8*b) 5 1 2 = 8*b := by unfold convOutDim; omega
  simp [matchingShape, levelFeatShape, backwardShape, correlationShape,
    elemBinop, kTable, pTable, conv2dSq, conv2d_eq, hup, hco, hsa, hsb,
    hca, hcb, hfa, hfb]

theorem subpixelShape_three (a b : Nat) (ha : 1 ≤ a) (hb : 1 ≤ b) :
    subpixelShape 3 ⟨1, 3, 8*a, 8*b⟩ ⟨1, 3, 8*a, 8*b⟩ ⟨1, 64, 8*a, 8*b⟩
      ⟨1, 64, 8*a, 8*b⟩ (some ⟨1, 2, 8*a, 8*b⟩) = some ⟨1, 2, 8*a, 8*b⟩ := by
  have hca : convOutDim (8*a) 3 1 1 = 8*a := by unfold convOutDim; omega
  have hcb : convOutDim (8*b) 3 1 1 = 8*b := by unfold convOutDim; omega
  have hfa : convOutDim (8*a) 5 1 2 = 8*a := by unfold convOutDim; omega
  have hfb : convOutDim (8*b) 5 1 2 = 8*b := by unfold convOutDim; omega
  simp [subpixelShape, levelFeatShape, backwardShape, catDim1,
    subpixelInChannels, kTable, pTable, conv2dSq, conv2d_eq, elemBinop,
    hca, hcb, hfa, hfb]

theorem regularShape_three (a b : Nat) (ha : 1 ≤ a) (hb : 1 ≤ b) :
    regularShape 3 ⟨1, 3, 8*a, 8*b⟩ ⟨1, 3, 8*a, 8*b⟩ ⟨1, 64, 8*a, 8*b⟩
      ⟨1, 64, 8*a, 8*b⟩ ⟨1, 2, 8*a, 8*b⟩ = some ⟨1, 2, 8*a, 8*b⟩ := by
  have hca : convOutDim (8*a) 3 1 1 = 8*a := by unfold convOutDim; omega
  have hcb : convOutDim (8*b) 3 1 1 = 8*b := by unfold convOutDim; omega
  have hka : convOutDim (8*a) 1 1 0 = 8*a := by unfold convOutDim; omega
  have hkb : convOutDim (8*b) 1 1 0 = 8*b := by unfold convOutDim; omega
  have hfa : convOutDim (8*a) 5 1 2 = 8*a := by unfold convOutDim; omega
  have hfb : convOutDim (8*b) 5 1 2 = 8*b := by unfold convOutDim; omega
  have hva : 8*a - 1 + 1 = 8*a := by omega
  have hvb : 8*b - 1 + 1 = 8*b := by omega
  simp [regularShape, regularMainStack, regularScaleBranch, regularFeatShape,
    distShape, backwardShape, elemBinop, sumDim1Keep, catDim1, viewAsShape,
    unfoldShape, regularMainChannels, regularFeatChannels, distChannels,
    intUnfoldTable, kTable, pTable, conv2dSq, conv2d_eq, hca, hcb, hka, hkb,
    hfa, hfb, hva, hvb, Nat.mul_assoc]

theorem deconv_flow_double16 (a b : Nat) (ha : 1 ≤ a) (hb : 1 ≤ b) :
    deconv2d 2 2 4 2 1 (⟨1, 2, 8*a, 8*b⟩ : Shape4) =
      some ⟨1, 2, 16*a, 16*b⟩ := by
  simp [deconv2d, Shape4.mk.injEq]
  omega

theorem deconv_corr_double16 (a b : Nat) (ha : 1 ≤ a) (hb : 1 ≤ b) :
    deconv2d 49 49 4 2 1 (⟨1, 49, 8*a, 8*b⟩ : Shape4) =
      some ⟨1, 49, 16*a, 16*b⟩ := by
  simp [deconv2d, Shape4.mk.injEq]
  omega

theorem matchingShape_two (a b : Nat) (ha : 1 ≤ a) (hb : 1 ≤ b) :
    matchingShape 2 ⟨1, 3, 16*a, 16*b⟩ ⟨1, 3, 16*a, 16*b⟩ ⟨1, 32, 16*a, 16*b⟩
      ⟨1, 32, 16*a, 16*b⟩ (some ⟨1, 2, 8*a, 8*b⟩) =
      some ⟨1, 2, 16*a, 16*b⟩ := by
  have hup := deconv_flow_double16 a b ha hb
  have hco := deconv_corr_double16 a b ha hb
  have hsa : (16*a + 1) / 2 = 8*a := by omega
  have hsb : (16*b + 1) / 2 = 8*b := by omega
  have hka : convOutDim (16*a) 1 1 0 = 16*a := by unfold convOutDim; omega
  have hkb : convOutDim (16*b) 1 1 0 = 16*b := by unfold convOutDim; omega
  have hca : convOutDim (16*a) 3 1 1 = 16*a := by unfold convOutDim; omega
  have hcb : convOutDim (16*b) 3 1 1 = 16*b := by unfold convOutDim; omega
  have hfa : convOutDim (16*a) 7 1 3 = 16*a := by unfold convOutDim; omega
  have hfb : convOutDim (16*b) 7 1 3 = 16*b := by unfold convOutDim; omega
  simp [matchingShape, levelFeatShape, backwardShape, correlationShape,
    elemBinop, kTable, pTable, conv2dSq, conv2d_eq, hup, hco, hsa, hsb,
    hka, hkb, hca, hcb, hfa, hfb]

theorem subpixelShape_two (a b : Nat) (ha : 1 ≤ a) (hb : 1 ≤ b) :
    subpixelShape 2 ⟨1, 3, 16*a, 16*b⟩ ⟨1, 3, 16*a, 16*b⟩ ⟨1, 32, 16*a, 16*b⟩
      ⟨1, 32, 16*a, 16*b⟩ (some ⟨1, 2, 16*a, 16*b⟩) =
      some ⟨1, 2, 16*a, 16*b⟩ := by
  have hka : convOutDim (16*a) 1 1 0 = 16*a := by unfold convOutDim; omega
  have hkb : convOutDim (16*b) 1 1 0 = 16*b := by unfold convOutDim; omega
  have hca : convOutDim (16*a) 3 1 1 = 16*a := by unfold convOutDim; omega
  have hcb : convOutDim (16*b) 3 1 1 = 16*b := by unfold convOutDim; omega
  have hfa : convOutDim (16*a) 7 1 3 = 16*a := by unfold convOutDim; omega
  have hfb : convOutDim (16*b) 7 1 3 = 16*b := by unfold convOutDim; omega
  simp [subpixelShape, levelFeatShape, backwardShape, catDim1,
    subpixelInChannels, kTable, pTable, conv2dSq, conv2d_eq, elemBinop,
    hka, hkb, hca, hcb, hfa, hfb]

theorem regularShape_two (a b : Nat) (ha : 1 ≤ a) (hb : 1 ≤ b) :
    regularShape 2 ⟨1, 3, 16*a, 16*b⟩ ⟨1, 3, 16*a, 16*b⟩ ⟨1, 32, 16*a, 16*b⟩
      ⟨1, 32, 16*a, 16*b⟩ ⟨1, 2, 16*a, 16*b⟩ = some ⟨1, 2, 16*a, 16*b⟩ := by
  have hca : convOutDim (16*a) 3 1 1 = 16*a := by unfold convOutDim; omega
  have hcb : convOutDim (16*b) 3 1 1 = 16*b := by unfold convOutDim; omega
  have hka : convOutDim (16*a) 1 1 0 = 16*a := by unfold convOutDim; omega
  have hkb : convOutDim (16*b) 1 1 0 = 16*b := by unfold convOutDim; omega
  have hfa : convOutDim (16*a) 7 1 3 = 16*a := by unfold convOutDim; omega
  have hfb : convOutDim (16*b) 7 1 3 = 16*b := by unfold convOutDim; omega
  have hva : 16*a - 1 + 1 = 16*a := by omega
  have hvb : 16*b - 1 + 1 = 16*b := by omega
  simp [regularShape, regularMainStack, regularScaleBranch, regularFeatShape,
    distShape, backwardShape, elemBinop, sumDim1Keep, catDim1, viewAsShape,
    unfoldShape, regularMainChannels, regularFeatChannels, distChannels,
    intUnfoldTable, kTable, pTable, conv2dSq, conv2d_eq, hca, hcb, hka, hkb,
    hfa, hfb, hva, hvb, Nat.mul_assoc]

theorem buildPyramid_sym (a b : Nat) :
    buildPyramid ⟨1, 3, 32*a, 32*b⟩
      [⟨1, 32, 32*a, 32*b⟩, ⟨1, 32, 16*a, 16*b⟩, ⟨1, 64, 8*a, 8*b⟩,
       ⟨1, 96, 4*a, 4*b⟩, ⟨1, 128, 2*a, 2*b⟩, ⟨1, 192, a, b⟩] =
      some [⟨1, 3, 32*a, 32*b⟩, ⟨1, 3, 16*a, 16*b⟩, ⟨1, 3, 8*a, 8*b⟩,
            ⟨1, 3, 4*a, 4*b⟩, ⟨1, 3, 2*a, 2*b⟩, ⟨1, 3, a, b⟩] := rfl

theorem levelStep_m1 (a b : Nat) (ha : 1 ≤ a) (hb : 1 ≤ b) :
    levelStepShape
      [⟨1, 3, 32*a, 32*b⟩, ⟨1, 3, 16*a, 16*b⟩, ⟨1, 3, 8*a, 8*b⟩,
       ⟨1, 3, 4*a, 4*b⟩, ⟨1, 3, 2*a, 2*b⟩, ⟨1, 3, a, b⟩]
      [⟨1, 3, 32*a, 32*b⟩, ⟨1, 3, 16*a, 16*b⟩, ⟨1, 3, 8*a, 8*b⟩,
       ⟨1, 3, 4*a, 4*b⟩, ⟨1, 3, 2*a, 2*b⟩, ⟨1, 3, a, b⟩]
      [⟨1, 32, 32*a, 32*b⟩, ⟨1, 32, 16*a, 16*b⟩, ⟨1, 64, 8*a, 8*b⟩,
       ⟨1, 96, 4*a, 4*b⟩, ⟨1, 128, 2*a, 2*b⟩, ⟨1, 192, a, b⟩]
      [⟨1, 32, 32*a, 32*b⟩, ⟨1, 32, 16*a, 16*b⟩, ⟨1, 64, 8*a, 8*b⟩,
       ⟨1, 96, 4*a, 4*b⟩, ⟨1, 128, 2*a, 2*b⟩, ⟨1, 192, a, b⟩]
      none (-1) = some (some ⟨1, 2, a, b⟩) := by
  simp [levelStepShape, pyIdx, matchingLevels, subpixelLevels, regularLevels,
    matchingShape_six a b ha hb, subpixelShape_six a b ha hb,
    regularShape_six a b ha hb]

theorem levelStep_m2 (a b : Nat) (ha : 1 ≤ a) (hb : 1 ≤ b) :
    levelStepShape
      [⟨1, 3, 32*a, 32*b⟩, ⟨1, 3, 16*a, 16*b⟩, ⟨1, 3, 8*a, 8*b⟩,
       ⟨1, 3, 4*a, 4*b⟩, ⟨1, 3, 2*a, 2*b⟩, ⟨1, 3, a, b⟩]
      [⟨1, 3, 32*a, 32*b⟩, ⟨1, 3, 16*a, 16*b⟩, ⟨1, 3, 8*a, 8*b⟩,
       ⟨1, 3, 4*a, 4*b⟩, ⟨1, 3, 2*a, 2*b⟩, ⟨1, 3, a, b⟩]
      [⟨1, 32, 32*a, 32*b⟩, ⟨1, 32, 16*a, 16*b⟩, ⟨1, 64, 8*a, 8*b⟩,
       ⟨1, 96, 4*a, 4*b⟩, ⟨1, 128, 2*a, 2*b⟩, ⟨1, 192, a, b⟩]
      [⟨1, 32, 32*a, 32*b⟩, ⟨1, 32, 16*a, 16*b⟩, ⟨1, 64, 8*a, 8*b⟩,
       ⟨1, 96, 4*a, 4*b⟩, ⟨1, 128, 2*a, 2*b⟩, ⟨1, 192, a, b⟩]
      (some ⟨1, 2, a, b⟩) (-2) = some (some ⟨1, 2, 2*a, 2*b⟩) := by
  simp [levelStepShape, pyIdx, matchingLevels, subpixelLevels, regularLevels,
    matchingShape_five a b ha hb,
    subpixelShape_five a b ha hb,
    regularShape_five a b ha hb]

theorem levelStep_m3 (a b : Nat) (ha : 1 ≤ a) (hb : 1 ≤ b) :
    levelStepShape
      [⟨1, 3, 32*a, 32*b⟩, ⟨1, 3, 16*a, 16*b⟩, ⟨1, 3, 8*a, 8*b⟩,
       ⟨1, 3, 4*a, 4*b⟩, ⟨1, 3, 2*a, 2*b⟩, ⟨1, 3, a, b⟩]
      [⟨1, 3, 32*a, 32*b⟩, ⟨1, 3, 16*a, 16*b⟩, ⟨1, 3, 8*a, 8*b⟩,
       ⟨1, 3, 4*a, 4*b⟩, ⟨1, 3, 2*a, 2*b⟩, ⟨1, 3, a, b⟩]
      [⟨1, 32, 32*a, 32*b⟩, ⟨1, 32, 16*a, 16*b⟩, ⟨1, 64, 8*a, 8*b⟩,
       ⟨1, 96, 4*a, 4*b⟩, ⟨1, 128, 2*a, 2*b⟩, ⟨1, 192, a, b⟩]
      [⟨1, 32, 32*a, 32*b⟩, ⟨1, 32, 16*a, 16*b⟩, ⟨1, 64, 8*a, 8*b⟩,
       ⟨1, 96, 4*a, 4*b⟩, ⟨1, 128, 2*a, 2*b⟩, ⟨1, 192, a, b⟩]
      (some ⟨1, 2, 2*a, 2*b⟩) (-3) = some (some ⟨1, 2, 4*a, 4*b⟩) := by
  simp [levelStepShape, pyIdx, matchingLevels, subpixelLevels, regularLevels,
    matchingShape_four a b ha hb,
    subpixelShape_four a b ha hb,
    regularShape_four a b ha hb]

theorem levelStep_m4 (a b : Nat) (ha : 1 ≤ a) (hb : 1 ≤ b) :
    levelStepShape
      [⟨1, 3, 32*a, 32*b⟩, ⟨1, 3, 16*a, 16*b⟩, ⟨1, 3, 8*a, 8*b⟩,
       ⟨1, 3, 4*a, 4*b⟩, ⟨1, 3, 2*a, 2*b⟩, ⟨1, 3, a, b⟩]
      [⟨1, 3, 32*a, 32*b⟩, ⟨1, 3, 16*a, 16*b⟩, ⟨1, 3, 8*a, 8*b⟩,
       ⟨1, 3, 4*a, 4*b⟩, ⟨1, 3, 2*a, 2*b⟩, ⟨1, 3, a, b⟩]
      [⟨1, 32, 32*a, 32*b⟩, ⟨1, 32, 16*a, 16*b⟩, ⟨1, 64, 8*a, 8*b⟩,
       ⟨1, 96, 4*a, 4*b⟩, ⟨1, 128, 2*a, 2*b⟩, ⟨1, 192, a, b⟩]
      [⟨1, 32, 32*a, 32*b⟩, ⟨1, 32, 16*a, 16*b⟩, ⟨1, 64, 8*a, 8*b⟩,
       ⟨1, 96, 4*a, 4*b⟩, ⟨1, 128, 2*a, 2*b⟩, ⟨1, 192, a, b⟩]
      (some ⟨1, 2, 4*a, 4*b⟩) (-4) = some (some ⟨1, 2, 8*a, 8*b⟩) := by
  simp [levelStepShape, pyIdx, matchingLevels, subpixelLevels, regularLevels,
    matchingShape_three a b ha hb,
    subpixelShape_three a b ha hb,
    regularShape_three a b ha hb]

theorem levelStep_m5 (a b : Nat) (ha : 1 ≤ a) (hb : 1 ≤ b) :
    levelStepShape
      [⟨1, 3, 32*a, 32*b⟩, ⟨1, 3, 16*a, 16*b⟩, ⟨1, 3, 8*a, 8*b⟩,
       ⟨1, 3, 4*a, 4*b⟩, ⟨1, 3, 2*a, 2*b⟩, ⟨1, 3, a, b⟩]
      [⟨1, 3, 32*a, 32*b⟩, ⟨1, 3, 16*a, 16*b⟩, ⟨1, 3, 8*a, 8*b⟩,
       ⟨1, 3, 4*a, 4*b⟩, ⟨1, 3, 2*a, 2*b⟩, ⟨1, 3, a, b⟩]
      [⟨1, 32, 32*a, 32*b⟩, ⟨1, 32, 16*a, 16*b⟩, ⟨1, 64, 8*a, 8*b⟩,
       ⟨1, 96, 4*a, 4*b⟩, ⟨1, 128, 2*a, 2*b⟩, ⟨1, 192, a, b⟩]
      [⟨1, 32, 32*a, 32*b⟩, ⟨1, 32, 16*a, 16*b⟩, ⟨1, 64, 8*a, 8*b⟩,
       ⟨1, 96, 4*a, 4*b⟩, ⟨1, 128, 2*a, 2*b⟩, ⟨1, 192, a, b⟩]
      (some ⟨1, 2, 8*a, 8*b⟩) (-5) = some (some ⟨1, 2, 16*a, 16*b⟩) := by
  simp [levelStepShape, pyIdx, matchingLevels, subpixelLevels, regularLevels,
    matchingShape_two a b ha hb,
    subpixelShape_two a b ha hb,
    regularShape_two a b ha hb]

theorem networkShape_sym (a b : Nat) (ha : 1 ≤ a) (hb : 1 ≤ b) :
    networkShape ⟨1, 3, 32*a, 32*b⟩ ⟨1, 3, 32*a, 32*b⟩ =
      some ⟨1, 2, 16*a, 16*b⟩ := by
  simp [networkShape, featuresShape_sym a b ha hb, buildPyramid_sym a b,
    intLevels, List.foldlM,
    levelStep_m1 a b ha hb, levelStep_m2 a b ha hb, levelStep_m3 a b ha hb,
    levelStep_m4 a b ha hb, levelStep_m5 a b ha hb]

theorem intPreprocessed_eq (x : Nat) :
    intPreprocessed x = 32 * ((x + 31) / 32) := by
  unfold intPreprocessed
  have h1 : ((x + 31) / 32) * 32 < x + 32 := by omega
  have h2 : x ≤ ((x + 31) / 32) * 32 := by omega
  have hq : ⌈(x : ℚ) / 32⌉ = ((x + 31) / 32 : Nat) := by
    rw [Int.ceil_eq_iff]
    constructor
    · rw [sub_lt_iff_lt_add]
      have hrw : (x : ℚ) / 32 + 1 = ((x : ℚ) + 32) / 32 := by ring
      rw [hrw, lt_div_iff₀ (by norm_num : (0:ℚ) < 32)]
      exact_mod_cast h1
    · rw [div_le_iff₀ (by norm_num : (0:ℚ) < 32)]
      exact_mod_cast h2
  rw [hq, Int.toNat_natCast]
  omega

theorem intPreprocessed_least (x : Nat) :
    32 ∣ intPreprocessed x ∧ x ≤ intPreprocessed x ∧
      ∀ b, 32 ∣ b → x ≤ b → intPreprocessed x ≤ b := by
  rw [intPreprocessed_eq]
  refine ⟨⟨(x + 31) / 32, rfl⟩, by omega, ?_⟩
  intro b hb hxb
  obtain ⟨c, rfl⟩ := hb
  omega

theorem estimateRun_ok (H W : Nat) (hH : 1 ≤ H) (hW : 1 ≤ W) :
    estimateRun ⟨3, H, W⟩ ⟨3, H, W⟩ =
      Except.ok (⟨2, H, W⟩, (W : ℚ) / (intPreprocessed W : ℚ),
        (H : ℚ) / (intPreprocessed H : ℚ)) := by
  have haH : 1 ≤ (H + 31) / 32 := by omega
  have haW : 1 ≤ (W + 31) / 32 := by omega
  have hnet : networkShape ⟨1, 3, intPreprocessed H, intPreprocessed W⟩
      ⟨1, 3, intPreprocessed H, intPreprocessed W⟩ =
      some ⟨1, 2, 16 * ((H + 31) / 32), 16 * ((W + 31) / 32)⟩ := by
    rw [intPreprocessed_eq H, intPreprocessed_eq W]
    exact networkShape_sym _ _ haH haW
  simp [estimateRun, hnet, interpolateTo]

/-- C7: for two 3-channel input images of spatial size `H` by `W`
(`H, W ≥ 1`), `estimate` succeeds and returns a single flow tensor of
shape `(2, H, W)` — the network output interpolated back to `(H, W)` with
the batch dimension removed — whose x-component (channel 0) was scaled by
`W` over the padded width and whose y-component (channel 1) was scaled by
`H` over the padded height, where the padded size `intPreprocessed x` is
exactly the least multiple of 32 that is at least `x`. -/
theorem estimate_output_shape (H W : Nat) (hH : 1 ≤ H) (hW : 1 ≤ W) :
    estimateRun ⟨3, H, W⟩ ⟨3, H, W⟩ =
      Except.ok (⟨2, H, W⟩, (W : ℚ) / (intPreprocessed W : ℚ),
        (H : ℚ) / (intPreprocessed H : ℚ)) ∧
    (32 ∣ intPreprocessed W ∧ W ≤ intPreprocessed W ∧
      ∀ b, 32 ∣ b → W ≤ b → intPreprocessed W ≤ b) ∧
    (32 ∣ intPreprocessed H ∧ H ≤ intPreprocessed H ∧
      ∀ b, 32 ∣ b → H ≤ b → intPreprocessed H ≤ b) :=
  ⟨estimateRun_ok H W hH hW, intPreprocessed_least W, intPreprocessed_least H⟩

theorem estimate_output_shape_witness :
    ((1 ≤ 2 ∧ 1 ≤ 3) : Prop) ∧
    (estimateRun ⟨3, 2, 3⟩ ⟨3, 2, 3⟩ =
      Except.ok (⟨2, 2, 3⟩, (3 : ℚ) / (intPreprocessed 3 : ℚ),
        (2 : ℚ) / (intPreprocessed 2 : ℚ)) ∧
    (32 ∣ intPreprocessed 3 ∧ 3 ≤ intPreprocessed 3 ∧
      ∀ b, 32 ∣ b → 3 ≤ b → intPreprocessed 3 ≤ b) ∧
    (32 ∣ intPreprocessed 2 ∧ 2 ≤ intPreprocessed 2 ∧
      ∀ b, 32 ∣ b → 2 ≤ b → intPreprocessed 2 ≤ b)) :=
  ⟨⟨by decide, by decide⟩, estimate_output_shape 2 3 (by decide) (by decide)⟩

/-- C4: `estimate` takes exactly two image tensors and returns exactly
one flow tensor: when the inputs agree in dimension 1 (height) and
dimension 2 (width), both assertions pass and it returns one tensor
(an `ok` result); when either dimension differs, it fails by assertion
before any computation — the result is an assertion error and the network
is never run. -/
theorem estimate_contract (c1 h1 w1 c2 h2 w2 : Nat) (hc1 : c1 = 3)
    (hc2 : c2 = 3) (hh : 1 ≤ h1) (hw : 1 ≤ w1) :
    (h1 = h2 ∧ w1 = w2 →
      ∃ out, estimateRun ⟨c1, h1, w1⟩ ⟨c2, h2, w2⟩ = Except.ok out) ∧
    (¬(h1 = h2 ∧ w1 = w2) →
      (∃ msg, estimateRun ⟨c1, h1, w1⟩ ⟨c2, h2, w2⟩ = Except.error msg) ∧
      EstEvent.networkRun ∉ estimateEvents ⟨c1, h1, w1⟩ ⟨c2, h2, w2⟩) := by
  subst hc1
  subst hc2
  constructor
  · rintro ⟨rfl, rfl⟩
    exact ⟨_, estimateRun_ok h1 w1 hh hw⟩
  · intro hne
    have hor : h1 ≠ h2 ∨ w1 ≠ w2 := by tauto
    constructor
    · by_cases hh2 : h1 = h2
      · have hw2 : w1 ≠ w2 := by tauto
        exact ⟨"AssertionError: size(2)", by simp [estimateRun, hh2, hw2]⟩
      · exact ⟨"AssertionError: size(1)", by simp [estimateRun, hh2]⟩
    · rcases hor with hd | hd <;> simp [estimateEvents, hd]

theorem estimate_contract_witness :
    (((3:Nat) = 3 ∧ (3:Nat) = 3 ∧ 1 ≤ 2 ∧ 1 ≤ 5) : Prop) ∧
    ((2 = 2 ∧ 5 = 5 →
      ∃ out, estimateRun ⟨3, 2, 5⟩ ⟨3, 2, 5⟩ = Except.ok out) ∧
    (¬(2 = 2 ∧ 5 = 5) →
      (∃ msg, estimateRun ⟨3, 2, 5⟩ ⟨3, 2, 5⟩ = Except.error msg) ∧
      EstEvent.networkRun ∉ estimateEvents ⟨3, 2, 5⟩ ⟨3, 2, 5⟩)) :=
  ⟨⟨rfl, rfl, by decide, by decide⟩,
    estimate_contract 3 2 5 3 2 5 rfl rfl (by decide) (by decide)⟩
